import Mathlib

/- Shallow embedding of the echobot relay program (src/echobot.py).

   Mongo collections are modelled as in-memory lists in insertion order:
   find_one is List.find? (first match), insert_one appends, update_one
   with upsert modifies the first match or appends, delete_one removes the
   first match, find returns all matches in order.  Wall-clock time is an
   explicit Int parameter in seconds; datetime arithmetic becomes Int
   subtraction, and timedelta(days=365) is 31536000 seconds.  Transport
   (aiogram) calls are modelled by per-recipient outcome parameters:
   BotBlocked and UserDeactivated are the exceptions the code catches and
   maps to directory pruning, any other exception is logged and swallowed.
   Unhandled Python exceptions that escape a handler, namely TypeError
   from User(**None) when a users document is missing and ValueError from
   int(...) on malformed command arguments, are modelled as Except.error. -/

structure User where
  user_id : Nat
  admin : Bool
  vip : Bool
deriving DecidableEq, Repr

structure Settings where
  user_id : Nat
  show_nickname_inline : Bool
deriving DecidableEq, Repr

structure CooldownRec where
  user_id : Nat
  sent_at : Int
deriving DecidableEq, Repr

structure RelayRecord where
  sender_id : Nat
  sender_message_id : Nat
  receiver_id : Nat
  receiver_message_id : Nat
  original_message_id : Nat
deriving DecidableEq, Repr

structure DB where
  users : List User
  settings : List Settings
  cooldown : List CooldownRec
  sent_messages : List RelayRecord
deriving DecidableEq, Repr

structure ReplyInfo where
  message_id : Nat
  from_is_bot : Bool
deriving DecidableEq, Repr

structure Msg where
  from_user_id : Nat
  message_id : Nat
  reply_to : Option ReplyInfo
deriving DecidableEq, Repr

inductive SendOutcome where
  | ok (copy_id : Nat)
  | botBlocked
  | userDeactivated
  | otherError
deriving DecidableEq, Repr

inductive EditOutcome where
  | ok
  | botBlocked
  | userDeactivated
  | otherError
deriving DecidableEq, Repr

inductive Fault where
  | typeError
  | valueError
deriving DecidableEq, Repr

inductive Reply where
  | sentTo (count : Nat)
  | pleaseWait
  | noRightsCommand
  | done
  | noRightsDelete
  | deletedForAll
  | noRightsBan
  | banned (user_id : Nat)
  | noRightsUnban
  | unbanned (user_id : Nat)
  | somethingWentWrong
deriving DecidableEq, Repr

/-- Mongo update_one with upsert=True on the users collection: modify the
first document matching user_id, or append a fresh one. -/
def upsertUser : List User → User → List User
  | [], u => [u]
  | v :: rest, u => if v.user_id == u.user_id then u :: rest else v :: upsertUser rest u

/-- Mongo delete_one on the users collection: remove the first document
matching user_id. -/
def deleteOneUser : List User → Nat → List User
  | [], _ => []
  | v :: rest, uid => if v.user_id == uid then rest else v :: deleteOneUser rest uid

/-- Mongo update_one with upsert=True on the cooldown collection, setting
sent_at. -/
def upsertCooldown : List CooldownRec → Nat → Int → List CooldownRec
  | [], uid, t => [{ user_id := uid, sent_at := t }]
  | c :: rest, uid, t =>
    if c.user_id == uid then { user_id := uid, sent_at := t } :: rest
    else c :: upsertCooldown rest uid t

/-- save_user (echobot.py lines 46-48): upserts the user document setting
both privilege flags to the given values; a caller that passes only one of
admin or vip therefore resets the other flag to False. -/
def save_user (db : DB) (user_id : Nat) (admin vip : Bool) : DB :=
  { db with users := upsertUser db.users { user_id := user_id, admin := admin, vip := vip } }

/-- is_admin (lines 69-71): the admin flag of the first matching users
document, False when there is none. -/
def is_admin (db : DB) (user_id : Nat) : Bool :=
  match db.users.find? (fun u => u.user_id == user_id) with
  | some u => u.admin
  | none => false

/-- is_vip (lines 74-76). -/
def is_vip (db : DB) (user_id : Nat) : Bool :=
  match db.users.find? (fun u => u.user_id == user_id) with
  | some u => u.vip
  | none => false

/-- get_settings (lines 79-88): returns the settings document, inserting
the documented defaults when none exists yet. -/
def get_settings (db : DB) (user_id : Nat) : DB × Settings :=
  match db.settings.find? (fun s => s.user_id == user_id) with
  | some s => (db, s)
  | none =>
    ({ db with settings :=
        db.settings ++ [{ user_id := user_id, show_nickname_inline := false }] },
     { user_id := user_id, show_nickname_inline := false })

/-- cooldown_check (lines 95-100): False (denied) when a cooldown document
exists and fewer than 60 seconds have passed since its sent_at, True
otherwise. -/
def cooldown_check (db : DB) (now : Int) (user_id : Nat) : Bool :=
  match db.cooldown.find? (fun c => c.user_id == user_id) with
  | some last_message => if now - last_message.sent_at < 60 then false else true
  | none => true

/-- update_cooldown (lines 103-104): upserts sent_at := now. -/
def update_cooldown (db : DB) (now : Int) (user_id : Nat) : DB :=
  { db with cooldown := upsertCooldown db.cooldown user_id now }

/-- save_sent_message (lines 143-147): a plain insert_one into the
sent_messages collection; no uniqueness check of any kind is performed and
the insert never fails. -/
def save_sent_message (db : DB)
    (sender_id sender_message_id receiver_id receiver_message_id original_message_id : Nat) : DB :=
  { db with sent_messages := db.sent_messages ++
      [{ sender_id := sender_id, sender_message_id := sender_message_id,
         receiver_id := receiver_id, receiver_message_id := receiver_message_id,
         original_message_id := original_message_id }] }

/-- get_sent_messages (lines 150-152): despite the name of its second
parameter, the query filters on original_message_id; the cursor is capped
at 10000 documents by to_list(length=10000). -/
def get_sent_messages (db : DB) (sender_id sender_message_id : Nat) : List RelayRecord :=
  (db.sent_messages.filter
    (fun r => r.sender_id == sender_id && r.original_message_id == sender_message_id)).take 10000

/-- truthy models the Python truthiness test on an optional integer
keyword argument: None and 0 are falsy. -/
def truthy : Option Nat → Bool
  | none => false
  | some n => n != 0

/-- get_sent_message_id (lines 155-182): branches on which keyword
arguments are truthy.  The branches that receive receiver_id return the
stored receiver_message_id (Sum.inl), the others return the whole
document (Sum.inr); when no document matches the function falls through
and returns None. -/
def get_sent_message_id (db : DB)
    (sender_message_id original_message_id receiver_id : Option Nat) :
    Option (Sum Nat RelayRecord) :=
  if truthy sender_message_id then
    if truthy receiver_id then
      match db.sent_messages.find? (fun r =>
          r.sender_message_id == sender_message_id.getD 0 &&
          r.receiver_id == receiver_id.getD 0) with
      | some sent_message => some (Sum.inl sent_message.receiver_message_id)
      | none => none
    else
      match db.sent_messages.find? (fun r =>
          r.sender_message_id == sender_message_id.getD 0) with
      | some sent_message => some (Sum.inr sent_message)
      | none => none
  else if truthy original_message_id then
    if truthy receiver_id then
      match db.sent_messages.find? (fun r =>
          r.receiver_id == receiver_id.getD 0 &&
          r.original_message_id == original_message_id.getD 0) with
      | some sent_message => some (Sum.inl sent_message.receiver_message_id)
      | none => none
    else
      match db.sent_messages.find? (fun r =>
          r.original_message_id == original_message_id.getD 0) with
      | some sent_message => some (Sum.inr sent_message)
      | none => none
  else none

/-- resolve_reply (send_msg, lines 191-203): a reply to a bot message,
which every relayed copy is, is resolved through sender_message_id; a
reply to the user's own non-bot message is resolved through
original_message_id.  Both lookups are scoped to the target receiver. -/
def resolve_reply (db : DB) (msg : Msg) (receiver_id : Nat) : Option (Sum Nat RelayRecord) :=
  match msg.reply_to with
  | some rt =>
    if rt.from_is_bot then get_sent_message_id db (some rt.message_id) none (some receiver_id)
    else get_sent_message_id db none (some rt.message_id) (some receiver_id)
  | none => none

/-- send_msg (lines 189-214) for one recipient.  On a successful copy the
record is saved with sender_message_id and receiver_message_id both set to
sent_message.message_id, the copy identifier assigned by the transport on
the recipient side (line 207-208).  BotBlocked and UserDeactivated delete
the recipient from the users collection and nothing else; any other
exception is logged and leaves the state unchanged.  Nothing is ever
reported back to the sender from this function. -/
def send_msg (db : DB) (msg : Msg) (user_id : Nat) (outcome : SendOutcome) : DB :=
  let _reply_to_message_id := resolve_reply db msg user_id
  match outcome with
  | SendOutcome.ok copy_id =>
    save_sent_message db msg.from_user_id copy_id user_id copy_id msg.message_id
  | SendOutcome.botBlocked => { db with users := deleteOneUser db.users user_id }
  | SendOutcome.userDeactivated => { db with users := deleteOneUser db.users user_id }
  | SendOutcome.otherError => db

def isOk : SendOutcome → Bool
  | SendOutcome.ok _ => true
  | _ => false

/-- numOk counts the recipients whose transport copy succeeded. -/
def numOk (users : List User) (out : Nat → SendOutcome) : Nat :=
  (users.filter (fun u => isOk (out u.user_id))).length

/-- broadcast_message (lines 217-237): snapshots the full users collection
(the sender included), faults with TypeError when the sender has no users
document (User(**None) on line 219), lazily creates the sender's settings,
fans out send_msg over every snapshotted user, and finally replies with
count = len(cor), the number of scheduled per-recipient tasks, which is
the size of the snapshot regardless of per-recipient outcomes. -/
def broadcast_message (db : DB) (msg : Msg) (out : Nat → SendOutcome) :
    Except Fault (DB × Reply) :=
  match db.users.find? (fun u => u.user_id == msg.from_user_id) with
  | none => Except.error Fault.typeError
  | some _sender =>
    let recipients := db.users
    let db1 := (get_settings db msg.from_user_id).1
    let db2 := recipients.foldl (fun d u => send_msg d msg u.user_id (out u.user_id)) db1
    Except.ok (db2, Reply.sentTo recipients.length)

/-- edit_cor (lines 240-251): edits one copy; BotBlocked and
UserDeactivated prune the recipient from the users collection, anything
else is logged and ignored. -/
def edit_cor (db : DB) (sent_message : RelayRecord) (outcome : EditOutcome) : DB :=
  match outcome with
  | EditOutcome.botBlocked => { db with users := deleteOneUser db.users sent_message.receiver_id }
  | EditOutcome.userDeactivated =>
    { db with users := deleteOneUser db.users sent_message.receiver_id }
  | _ => db

/-- edit_handler (lines 254-268): faults with TypeError when the editing
sender has no users document (line 256), otherwise edits every recorded
copy of the original. -/
def edit_handler (db : DB) (msg : Msg) (out : Nat → EditOutcome) : Except Fault DB :=
  match db.users.find? (fun u => u.user_id == msg.from_user_id) with
  | none => Except.error Fault.typeError
  | some _sender =>
    let db1 := (get_settings db msg.from_user_id).1
    let sent := get_sent_messages db1 msg.from_user_id msg.message_id
    Except.ok (sent.foldl (fun d r => edit_cor d r (out r.receiver_id)) db1)

/-- matchedRecords: the record set that the reply-required handlers (del,
ban, unban, lines 274-277, 298-301, 330-333) resolve from the replied-to
message: by sender_message_id when the replied-to message came from the
bot, by original_message_id otherwise. -/
def matchedRecords (db : DB) (rp : ReplyInfo) : List RelayRecord :=
  if rp.from_is_bot then db.sent_messages.filter (fun r => r.sender_message_id == rp.message_id)
  else db.sent_messages.filter (fun r => r.original_message_id == rp.message_id)

/-- delete_loop: the per-record loop of delete_handler (lines 278-289).
The accumulator collects the transport delete calls issued so far as
(receiver_id, receiver_message_id) pairs; a failed permission check
returns immediately with the denial reply. -/
def delete_loop (db : DB) (issuer : Nat) :
    List RelayRecord → List (Nat × Nat) → List (Nat × Nat) × Reply
  | [], acc => (acc, Reply.deletedForAll)
  | m :: rest, acc =>
    if !(is_admin db issuer) && !(issuer == m.sender_id) then (acc, Reply.noRightsDelete)
    else
      let copies := db.sent_messages.filter
        (fun r => r.original_message_id == m.original_message_id)
      delete_loop db issuer rest (acc ++ copies.map (fun r => (r.receiver_id, r.receiver_message_id)))

/-- delete_handler (lines 271-291): returns the transport delete calls
attempted and the reply sent to the issuer.  The handler performs no
database writes at all in the source: it only calls bot.delete_message,
so the users, cooldown and sent_messages collections are untouched on
every path, which is why the embedding returns no DB. -/
def delete_handler (db : DB) (issuer : Nat) (rp : ReplyInfo) : List (Nat × Nat) × Reply :=
  delete_loop db issuer (matchedRecords db rp) []

/-- ban_cooldown_update (lines 316-318): upserts the target's cooldown
document with sent_at := now + timedelta(days=365), i.e. now + 31536000
seconds. -/
def ban_cooldown_update (db : DB) (now : Int) (user_id : Nat) : DB :=
  { db with cooldown := upsertCooldown db.cooldown user_id (now + 31536000) }

/-- ban_loop: the per-record loop of ban_handler (lines 302-318).  The
admin check happens inside the loop against the current state; a missing
users document for the recorded sender faults with TypeError
(User(**None), line 309).  Each save_user call in the source passes only
one flag, so both flags are reset to False. -/
def ban_loop (now : Int) (issuer : Nat) :
    DB → List RelayRecord → Nat → Except Fault (DB × Reply)
  | db, [], user_id =>
    Except.ok (db, if user_id != 0 then Reply.banned user_id else Reply.somethingWentWrong)
  | db, m :: rest, _ =>
    if !(is_admin db issuer) then Except.ok (db, Reply.noRightsBan)
    else
      match db.users.find? (fun u => u.user_id == m.sender_id) with
      | none => Except.error Fault.typeError
      | some u =>
        let db1 := if u.vip then save_user db m.sender_id false false else db
        let db2 := if u.admin then save_user db1 m.sender_id false false else db1
        ban_loop now issuer (ban_cooldown_update db2 now m.sender_id) rest m.sender_id

/-- ban_handler (lines 294-323): resolves the target from the replied-to
message; when nothing resolved, user_id stays 0 and the issuer receives
the generic failure message. -/
def ban_handler (db : DB) (now : Int) (issuer : Nat) (rp : ReplyInfo) :
    Except Fault (DB × Reply) :=
  ban_loop now issuer db (matchedRecords db rp) 0

/-- unban_cooldown_update (lines 343-345): upserts the target's cooldown
document with sent_at := now - 60 seconds. -/
def unban_cooldown_update (db : DB) (now : Int) (user_id : Nat) : DB :=
  { db with cooldown := upsertCooldown db.cooldown user_id (now - 60) }

/-- unban_loop: the per-record loop of unban_handler (lines 334-345). -/
def unban_loop (now : Int) (issuer : Nat) :
    DB → List RelayRecord → Nat → Except Fault (DB × Reply)
  | db, [], user_id =>
    Except.ok (db, if user_id != 0 then Reply.unbanned user_id else Reply.somethingWentWrong)
  | db, m :: rest, _ =>
    if !(is_admin db issuer) then Except.ok (db, Reply.noRightsUnban)
    else
      match db.users.find? (fun u => u.user_id == m.sender_id) with
      | none => Except.error Fault.typeError
      | some _u => unban_loop now issuer (unban_cooldown_update db now m.sender_id) rest m.sender_id

/-- unban_handler (lines 326-350). -/
def unban_handler (db : DB) (now : Int) (issuer : Nat) (rp : ReplyInfo) :
    Except Fault (DB × Reply) :=
  unban_loop now issuer db (matchedRecords db rp) 0

/-- parse_int models Python int() on a command argument, given as the list
of its characters: a non-empty digit string parses, anything else raises
ValueError, modelled by none. -/
def parse_int (args : List Char) : Option Nat :=
  if args.isEmpty then none
  else if args.all (fun ch => ch.isDigit) then
    some (args.foldl (fun n ch => n * 10 + (ch.toNat - 48)) 0)
  else none

/-- admin_handler (lines 51-57): int(message.get_args()) raises ValueError
on non-numeric arguments, modelled by parse_int returning none. -/
def admin_handler (db : DB) (admin_id issuer : Nat) (args : List Char) :
    Except Fault (DB × Reply) :=
  if issuer == admin_id then
    match parse_int args with
    | none => Except.error Fault.valueError
    | some uid => Except.ok (save_user db uid true false, Reply.done)
  else Except.ok (db, Reply.noRightsCommand)

/-- text_handler (lines 353-362): admins and VIPs broadcast with no
cooldown side effect; everyone else broadcasts only when cooldown_check
passes, with update_cooldown executed before broadcast_message begins;
otherwise a please-wait reply and no fan-out. -/
def text_handler (db : DB) (now : Int) (msg : Msg) (out : Nat → SendOutcome) :
    Except Fault (DB × Reply) :=
  if is_admin db msg.from_user_id || is_vip db msg.from_user_id then
    broadcast_message db msg out
  else if cooldown_check db now msg.from_user_id then
    broadcast_message (update_cooldown db now msg.from_user_id) msg out
  else Except.ok (db, Reply.pleaseWait)

/-- admission: the guard structure of text_handler (lines 356-358): a
message is admitted for broadcast exactly when the sender is admin, VIP,
or cooldown_check passes. -/
def admission (db : DB) (now : Int) (user_id : Nat) : Bool :=
  is_admin db user_id || is_vip db user_id || cooldown_check db now user_id

/-- replyOf projects the reply out of a handler result. -/
def replyOf (r : Except Fault (DB × Reply)) : Option Reply :=
  match r with
  | Except.ok p => some p.2
  | Except.error _ => none

/-- countMatching counts the ledger records for one (original message,
recipient) pair. -/
def countMatching (db : DB) (original_id recipient_id : Nat) : Nat :=
  (db.sent_messages.filter
    (fun r => r.original_message_id == original_id && r.receiver_id == recipient_id)).length

def emptyDB : DB := { users := [], settings := [], cooldown := [], sent_messages := [] }

/-- The ledger of claim C2: A = 1, B = 2, C = 3; RelayRecord(sender=A,
sender_copy=10, original=10, recipient=B, recipient_copy=55) and a record
of the same broadcast (same sender, sender_copy and original) with
recipient=C, recipient_copy=77. -/
def dbC2 : DB :=
  { users := [⟨1, false, false⟩, ⟨2, false, false⟩, ⟨3, false, false⟩],
    settings := [], cooldown := [],
    sent_messages := [⟨1, 10, 2, 55, 10⟩, ⟨1, 10, 3, 77, 10⟩] }

/-- A replying to their own copy 10 (a bot message). -/
def msgC2a : Msg := { from_user_id := 1, message_id := 201, reply_to := some ⟨10, true⟩ }

/-- B replying to the received copy 55 (a bot message). -/
def msgC2b : Msg := { from_user_id := 2, message_id := 202, reply_to := some ⟨55, true⟩ }

/-- Directory of three users X=1 (admin), Y=2, Z=3 for claim C3. -/
def db3 : DB :=
  { users := [⟨1, true, false⟩, ⟨2, false, false⟩, ⟨3, false, false⟩],
    settings := [⟨1, false⟩], cooldown := [], sent_messages := [] }

def msg3 : Msg := { from_user_id := 1, message_id := 100, reply_to := none }

/-- Outcomes for claim C3: recipient 2 is unreachable, the others succeed. -/
def out3 : Nat → SendOutcome :=
  fun u => if u == 2 then SendOutcome.botBlocked else SendOutcome.ok (100 + u)

/-- State for claim C4: recipient 2 is registered and the ledger holds one
RelayRecord whose recipient is 2. -/
def db4 : DB :=
  { users := [⟨2, false, false⟩], settings := [], cooldown := [],
    sent_messages := [⟨1, 9, 2, 9, 8⟩] }

def msg4 : Msg := { from_user_id := 1, message_id := 30, reply_to := none }

/-- State for claim C5: issuer 7 is admin, target 4 is an ordinary user
who sent the broadcast recorded as ⟨4, 20, 7, 20, 15⟩. -/
def db5 : DB :=
  { users := [⟨7, true, false⟩, ⟨4, false, false⟩], settings := [], cooldown := [],
    sent_messages := [⟨4, 20, 7, 20, 15⟩] }

/-- db5 after ban_handler banned user 4 at time 0. -/
def db5ban : DB :=
  { users := [⟨7, true, false⟩, ⟨4, false, false⟩], settings := [],
    cooldown := [⟨4, 31536000⟩], sent_messages := [⟨4, 20, 7, 20, 15⟩] }

/-- State for claim C6's witness: user 5 is registered, neither admin nor
VIP, with no cooldown record. -/
def db6 : DB :=
  { users := [⟨5, false, false⟩], settings := [], cooldown := [], sent_messages := [] }

def msg6 : Msg := { from_user_id := 5, message_id := 40, reply_to := none }

def out6 : Nat → SendOutcome := fun _ => SendOutcome.otherError

/-- State for claim C7's witness: issuer 2 is registered without admin
rights; the replied-to bot message 20 resolves to a record sent by 1. -/
def db7 : DB :=
  { users := [⟨2, false, false⟩], settings := [], cooldown := [],
    sent_messages := [⟨1, 20, 3, 20, 15⟩] }

def msg9 : Msg := { from_user_id := 5, message_id := 3, reply_to := none }

/-- Helper: looking up a user_id right after upserting its cooldown
document finds exactly the upserted document. -/
theorem upsertCooldown_find (l : List CooldownRec) (uid : Nat) (t : Int) :
    (upsertCooldown l uid t).find? (fun c => c.user_id == uid) =
      some { user_id := uid, sent_at := t } := by
  induction l with
  | nil => simp [upsertCooldown]
  | cons c rest ih =>
    by_cases h : c.user_id = uid
    · simp [upsertCooldown, h]
    · have hb : (c.user_id == uid) = false := by simp [h]
      simp [upsertCooldown, hb, ih]

/-- Claim C1, counterexample: save_sent_message called twice with the same
(original_id, recipient_id) pair leaves two RelayRecords for that pair in
the ledger, not one; the second insert succeeds. -/
theorem c1_counterexample :
    countMatching (save_sent_message (save_sent_message emptyDB 1 50 2 50 40) 1 50 2 50 40) 40 2
      = 2 ∧ (2 : Nat) ≠ 1 :=
  ⟨rfl, by decide⟩

/-- Claim C1, amended: save_sent_message performs a plain insert with no
uniqueness check, so calling it twice with the same (original_id,
recipient_id) pair adds exactly two matching RelayRecords to the ledger;
no DuplicateMapping failure exists and the at-most-one-record-per-
recipient invariant is not enforced by the code. -/
theorem c1_amended (db : DB) (s sm r rm o : Nat) :
    countMatching (save_sent_message (save_sent_message db s sm r rm o) s sm r rm o) o r
      = countMatching db o r + 2 := by
  simp [countMatching, save_sent_message, List.filter_append]

/-- Claim C2, counterexample: on the claim's ledger, a reply by B to the
received copy 55 is a reply to a bot message, so the code resolves it
through sender_message_id = 55 (send_msg lines 191-196), not through
original_message_id; no record has sender_message_id 55, so resolution
for target C yields none, not 77. -/
theorem c2_counterexample :
    resolve_reply dbC2 msgC2b 3 = none ∧
    (none : Option (Sum Nat RelayRecord)) ≠ some (Sum.inl 77) :=
  ⟨rfl, by simp⟩

/-- Claim C2, amended: on the given ledger, a reply by A to their own copy
10 resolves through sender_copy_id and yields 77 for target C, and a
lookup by original_id = 10 for target C, the path the code takes when a
user replies to their own original (non-bot) message, also yields 77; but
a reply by B to the received copy 55 is resolved through sender_copy_id =
55 because every received copy is a bot message, and yields none. -/
theorem c2_amended :
    resolve_reply dbC2 msgC2a 3 = some (Sum.inl 77) ∧
    get_sent_message_id dbC2 none (some 10) (some 3) = some (Sum.inl 77) ∧
    resolve_reply dbC2 msgC2b 3 = none :=
  ⟨rfl, rfl, rfl⟩

/-- Claim C3, counterexample: broadcasting to the three-user directory db3
with recipient 2 failing as BotBlocked still reports sentTo 3, the number
of scheduled tasks, while only 2 deliveries succeeded. -/
theorem c3_counterexample :
    replyOf (broadcast_message db3 msg3 out3) = some (Reply.sentTo 3) ∧
    numOk db3.users out3 = 2 ∧
    Reply.sentTo 3 ≠ Reply.sentTo 2 :=
  ⟨rfl, rfl, by decide⟩

/-- Claim C3, amended: the confirmation reports the number of fan-out
tasks scheduled, i.e. the number of directory entries in the snapshot
taken at broadcast start (attempted recipients), regardless of
per-recipient outcomes. -/
theorem c3_amended (db : DB) (msg : Msg) (out : Nat → SendOutcome)
    (h : (db.users.find? (fun u => u.user_id == msg.from_user_id)).isSome = true) :
    replyOf (broadcast_message db msg out) = some (Reply.sentTo db.users.length) := by
  unfold broadcast_message
  cases hf : db.users.find? (fun u => u.user_id == msg.from_user_id) with
  | none => rw [hf] at h; simp at h
  | some u => rfl

/-- Witness for c3_amended at the concrete broadcast of claim C3. -/
theorem c3_amended_witness :
    (db3.users.find? (fun u => u.user_id == msg3.from_user_id)).isSome = true ∧
    replyOf (broadcast_message db3 msg3 out3) = some (Reply.sentTo db3.users.length) :=
  ⟨by decide, c3_amended db3 msg3 out3 (by decide)⟩

/-- Claim C4, counterexample: when the transport reports recipient 2
blocked, send_msg removes user 2 from the users collection but leaves the
RelayRecord whose recipient is 2 in the ledger, so the cascading ledger
cleanup the claim describes does not happen. -/
theorem c4_counterexample :
    (send_msg db4 msg4 2 SendOutcome.botBlocked).users = [] ∧
    (send_msg db4 msg4 2 SendOutcome.botBlocked).sent_messages = [⟨1, 9, 2, 9, 8⟩] ∧
    (([(⟨1, 9, 2, 9, 8⟩ : RelayRecord)]).filter (fun r => r.receiver_id == 2)).length = 1 ∧
    (1 : Nat) ≠ 0 :=
  ⟨rfl, rfl, rfl, by decide⟩

/-- Claim C4, amended: on BotBlocked or UserDeactivated the recipient is
removed from the User Directory (first matching users document deleted)
and the error is never surfaced to the sender, but the Ledger is not
cleaned: the sent_messages collection is unchanged, so RelayRecords whose
recipient is the removed user remain. -/
theorem c4_amended (db : DB) (msg : Msg) (user_id : Nat) :
    (send_msg db msg user_id SendOutcome.botBlocked).users = deleteOneUser db.users user_id ∧
    (send_msg db msg user_id SendOutcome.botBlocked).sent_messages = db.sent_messages ∧
    (send_msg db msg user_id SendOutcome.userDeactivated).users = deleteOneUser db.users user_id ∧
    (send_msg db msg user_id SendOutcome.userDeactivated).sent_messages = db.sent_messages :=
  ⟨rfl, rfl, rfl, rfl⟩

/-- Claim C5, counterexample: admin 7 bans user 4 at time 0, which sets
the cooldown sent_at to 31536000 (365 days); at time 31536060, i.e. 365
days and 60 seconds later, admission for user 4 returns Allowed although
no unban was ever performed. -/
theorem c5_counterexample :
    ban_handler db5 0 7 ⟨20, true⟩ = Except.ok (db5ban, Reply.banned 4) ∧
    admission db5ban 31536060 4 = true :=
  ⟨rfl, rfl⟩

/-- Claim C5, amended: a ban pushes the target's cooldown sent_at to
now + 31536000; for a target who is neither admin nor VIP, admission is
then Denied at every time now2 with now2 - (now + 31536000) < 60, i.e.
for 365 days and 60 seconds after the ban, and returns Allowed as soon as
that window has elapsed even if no unban was performed. -/
theorem c5_ban_window (db : DB) (now now2 : Int) (uid : Nat)
    (hA : is_admin db uid = false) (hV : is_vip db uid = false) :
    admission (ban_cooldown_update db now uid) now2 uid =
      decide (60 ≤ now2 - (now + 31536000)) := by
  have hA2 : is_admin (ban_cooldown_update db now uid) uid = false := hA
  have hV2 : is_vip (ban_cooldown_update db now uid) uid = false := hV
  have hfind : (ban_cooldown_update db now uid).cooldown.find? (fun c => c.user_id == uid)
      = some { user_id := uid, sent_at := now + 31536000 } :=
    upsertCooldown_find db.cooldown uid (now + 31536000)
  unfold admission
  rw [hA2, hV2]
  simp only [Bool.false_or]
  unfold cooldown_check
  rw [hfind]
  show (if now2 - (now + 31536000) < 60 then false else true) =
    decide (60 ≤ now2 - (now + 31536000))
  by_cases h : 60 ≤ now2 - (now + 31536000)
  · have h2 : ¬ (now2 - (now + 31536000) < 60) := by omega
    rw [if_neg h2]
    exact (decide_eq_true h).symm
  · have h2 : now2 - (now + 31536000) < 60 := by omega
    rw [if_pos h2]
    exact (decide_eq_false h).symm

/-- Witness for c5_ban_window: a ban of user 4 at time 0 in the empty
state, evaluated at time 31536060. -/
theorem c5_ban_window_witness :
    is_admin emptyDB 4 = false ∧ is_vip emptyDB 4 = false ∧
    admission (ban_cooldown_update emptyDB 0 4) 31536060 4 =
      decide ((60 : Int) ≤ 31536060 - (0 + 31536000)) :=
  ⟨rfl, rfl, c5_ban_window emptyDB 0 31536060 4 rfl rfl⟩

/-- Claim C6: for a sender who is neither admin nor VIP, admission is
Allowed iff no cooldown document exists or at least 60 seconds have
elapsed since its sent_at; when Allowed, text_handler runs
broadcast_message on the state already updated by update_cooldown, whose
cooldown document for the sender then carries sent_at = now; when Denied,
the state is unchanged and the sender gets the please-wait reply. -/
theorem c6_cooldown_admission (db : DB) (now : Int) (msg : Msg) (out : Nat → SendOutcome)
    (hA : is_admin db msg.from_user_id = false) (hV : is_vip db msg.from_user_id = false) :
    (admission db now msg.from_user_id = true ↔
      (db.cooldown.find? (fun c => c.user_id == msg.from_user_id) = none ∨
       ∃ c, db.cooldown.find? (fun c => c.user_id == msg.from_user_id) = some c ∧
            60 ≤ now - c.sent_at)) ∧
    (cooldown_check db now msg.from_user_id = true →
      text_handler db now msg out =
        broadcast_message (update_cooldown db now msg.from_user_id) msg out ∧
      (update_cooldown db now msg.from_user_id).cooldown.find?
          (fun c => c.user_id == msg.from_user_id) =
        some { user_id := msg.from_user_id, sent_at := now }) ∧
    (cooldown_check db now msg.from_user_id = false →
      text_handler db now msg out = Except.ok (db, Reply.pleaseWait)) := by
  refine ⟨?_, ?_, ?_⟩
  · unfold admission
    rw [hA, hV]
    simp only [Bool.false_or]
    unfold cooldown_check
    cases hf : db.cooldown.find? (fun c => c.user_id == msg.from_user_id) with
    | none => simp
    | some c =>
      by_cases hlt : now - c.sent_at < 60
      · have h2 : ¬ (60 ≤ now - c.sent_at) := by omega
        simp [hlt, h2]
      · have h2 : 60 ≤ now - c.sent_at := by omega
        simp [hlt, h2]
  · intro hcd
    constructor
    · unfold text_handler
      rw [hA, hV, hcd]
      simp
    · exact upsertCooldown_find db.cooldown msg.from_user_id now
  · intro hcd
    unfold text_handler
    rw [hA, hV, hcd]
    simp

/-- Witness for c6_cooldown_admission: user 5 in db6 has no cooldown
record and is admitted, with the cooldown written before fan-out. -/
theorem c6_witness :
    is_admin db6 5 = false ∧ is_vip db6 5 = false ∧
    cooldown_check db6 0 5 = true ∧
    text_handler db6 0 msg6 out6 = broadcast_message (update_cooldown db6 0 5) msg6 out6 :=
  ⟨rfl, rfl, rfl, ((c6_cooldown_admission db6 0 msg6 out6 rfl rfl).2.1 rfl).1⟩

/-- Claim C7: when the issuer of the delete command is not an admin and is
not the sender of any record the replied-to message resolves to, and the
message does resolve to at least one record, the command is denied with
the no-rights reply before any transport delete is attempted; the handler
performs no database writes on any path. -/
theorem c7_delete_denied (db : DB) (issuer : Nat) (rp : ReplyInfo)
    (hA : is_admin db issuer = false)
    (hne : matchedRecords db rp ≠ [])
    (hs : ∀ r ∈ matchedRecords db rp, r.sender_id ≠ issuer) :
    delete_handler db issuer rp = ([], Reply.noRightsDelete) := by
  unfold delete_handler
  cases hm : matchedRecords db rp with
  | nil => exact absurd hm hne
  | cons m rest =>
    have hms : m.sender_id ≠ issuer := hs m (hm ▸ List.mem_cons_self m rest)
    have hb : (issuer == m.sender_id) = false := by
      simp only [beq_eq_false_iff_ne, ne_eq]
      exact fun h => hms h.symm
    unfold delete_loop
    rw [hA, hb]
    simp

/-- Witness for c7_delete_denied: non-admin user 2 tries to delete the
broadcast of user 1 via the bot copy 20. -/
theorem c7_witness :
    matchedRecords db7 ⟨20, true⟩ ≠ [] ∧
    delete_handler db7 2 ⟨20, true⟩ = ([], Reply.noRightsDelete) :=
  ⟨by decide, c7_delete_denied db7 2 ⟨20, true⟩ rfl (by decide) (by decide)⟩

/-- Claim C8, counterexample: with an empty ledger the replied-to message
resolves to no record, yet the delete command replies with the
deletion-success message, not the generic failure message. -/
theorem c8_counterexample :
    delete_handler emptyDB 9 ⟨5, true⟩ = ([], Reply.deletedForAll) ∧
    Reply.deletedForAll ≠ Reply.somethingWentWrong :=
  ⟨rfl, by decide⟩

/-- Claim C8, amended: when the replied-to message resolves to no
RelayRecord, ban and unban reply with the generic failure message and
leave the state unchanged; the delete command instead replies with the
deletion-success message, performing no transport deletes and, as on
every delete path, no state change. -/
theorem c8_amended (db : DB) (now : Int) (issuer : Nat) (rp : ReplyInfo)
    (h : matchedRecords db rp = []) :
    ban_handler db now issuer rp = Except.ok (db, Reply.somethingWentWrong) ∧
    unban_handler db now issuer rp = Except.ok (db, Reply.somethingWentWrong) ∧
    delete_handler db issuer rp = ([], Reply.deletedForAll) := by
  unfold ban_handler unban_handler delete_handler
  rw [h]
  exact ⟨rfl, rfl, rfl⟩

/-- Witness for c8_amended on the empty state. -/
theorem c8_amended_witness :
    matchedRecords emptyDB ⟨5, true⟩ = [] ∧
    ban_handler emptyDB 0 9 ⟨5, true⟩ = Except.ok (emptyDB, Reply.somethingWentWrong) ∧
    unban_handler emptyDB 0 9 ⟨5, true⟩ = Except.ok (emptyDB, Reply.somethingWentWrong) ∧
    delete_handler emptyDB 9 ⟨5, true⟩ = ([], Reply.deletedForAll) :=
  ⟨rfl, (c8_amended emptyDB 0 9 ⟨5, true⟩ rfl).1,
    (c8_amended emptyDB 0 9 ⟨5, true⟩ rfl).2.1,
    (c8_amended emptyDB 0 9 ⟨5, true⟩ rfl).2.2⟩

/-- Claim C9: evaluating the code at the failing inputs.  An ordinary
message from sender 5, who has no users document, passes admission (no
cooldown record) and then faults with TypeError in broadcast_message
(User(**None), line 219); an edit from the same sender faults the same
way in edit_handler (line 256); the admin invoking /admin with the
non-numeric argument abc faults with ValueError (int(), line 54).  None
of these paths ends in a state change or a user-visible reply. -/
theorem c9_unhandled_fault :
    text_handler emptyDB 0 msg9 (fun _ => SendOutcome.otherError) =
      Except.error Fault.typeError ∧
    edit_handler emptyDB msg9 (fun _ => EditOutcome.ok) = Except.error Fault.typeError ∧
    admin_handler emptyDB 99 99 ['a', 'b', 'c'] = Except.error Fault.valueError :=
  ⟨rfl, rfl, rfl⟩

/-- Claim C10: the RelayRecord created by a successful send_msg stores the
transport-assigned recipient copy identifier in both sender_message_id
and receiver_message_id, and shares with the other records of the same
broadcast only the sender_id and original_message_id taken from the
incoming message. -/
theorem c10_record_shape (db : DB) (msg : Msg) (user_id copy_id : Nat) :
    ∃ rec : RelayRecord,
      (send_msg db msg user_id (SendOutcome.ok copy_id)).sent_messages =
        db.sent_messages ++ [rec] ∧
      rec.sender_message_id = rec.receiver_message_id ∧
      rec.receiver_message_id = copy_id ∧
      rec.sender_id = msg.from_user_id ∧
      rec.receiver_id = user_id ∧
      rec.original_message_id = msg.message_id :=
  ⟨_, rfl, rfl, rfl, rfl, rfl, rfl⟩
